import Mathlib

/-!
Verification of `pysph/examples/sphysics/dambreak_sphysics.py`.

The module under study configures a 3D dam-break SPH run: it loads scalar
physical constants from an SPHysics INDAT file, builds a two-group equation
pipeline (`create_equations`) and a solver with a PEC or EPEC integrator
(`create_solver`).  We embed the configuration-building code shallowly: the
INDAT constants become an explicit record, the square root used for the sound
speed is an abstract function parameter (the source calls `numpy.sqrt`), and
each equation object becomes a constructor carrying exactly the configuration
the source passes to it.
-/

namespace PySPH

/-- The scalar constants the source reads from the SPHysics INDAT file
(`indat[10]`, `indat[11]`, `indat[12]`, `indat[14]`, `indat[15]`, `indat[16]`).
The file itself is external input, so the record is a parameter of the
development. -/
structure Indat where
  H : ℚ
  B : ℚ
  gamma : ℚ
  eps : ℚ
  rho0 : ℚ
  alpha : ℚ
  deriving DecidableEq

/-- `dim = 3`: problem dimensionality (module-level constant). -/
def dim : ℕ := 3

/-- `dt = 1e-5`: suggested initial time step (module-level constant). -/
def dt : ℚ := 1 / 100000

/-- `tf = 2.0`: final time (module-level constant). -/
def tf : ℚ := 2

/-- `beta = 0.0`: bulk artificial-viscosity coefficient, hard-coded at module
level; unlike `alpha` it is not taken from the INDAT record. -/
def beta : ℚ := 0

/-- `c0 = numpy.sqrt(B*gamma/rho0)`: the sound speed, computed once at module
load from the INDAT constants.  `sqrt` abstracts `numpy.sqrt`. -/
def c0 (sqrt : ℚ → ℚ) (ind : Indat) : ℚ := sqrt (ind.B * ind.gamma / ind.rho0)

/-- One configured equation object.  Each constructor carries the destination
species, the source-species list (`none` embeds Python's `sources=None`) and
the scalar constants the source passes to that equation's constructor.
For `momentumEquation`, the source passes only `gz`; the remaining gravity
components `gx`, `gy` are modelled from the spec: the body force is a constant
gravity component along a single axis, so the components not supplied are 0. -/
inductive Equation where
  | taitEOS (dest : String) (sources : Option (List String)) (rho0 c0 gamma : ℚ)
  | taitEOSHGCorrection (dest : String) (sources : Option (List String)) (rho0 c0 gamma : ℚ)
  | continuityEquation (dest : String) (sources : Option (List String))
  | momentumEquation (dest : String) (sources : Option (List String))
      (c0 alpha beta gx gy gz : ℚ) ( tensile_correction : Bool)
  | xsphCorrection (dest : String) (sources : Option (List String)) (eps : ℚ)
  deriving DecidableEq

/-- A `Group` of equations with its `real` flag.  The second group in the
source omits `real`; modelled from the spec, the real-only flag defaults to
covering all particles, i.e. `true`, and is a no-op filter in this
single-process core. -/
structure Group where
  equations : List Equation
  real : Bool
  deriving DecidableEq

/-- Destination species of an equation. -/
def Equation.dest : Equation → String
  | .taitEOS d _ _ _ _ => d
  | .taitEOSHGCorrection d _ _ _ _ => d
  | .continuityEquation d _ => d
  | .momentumEquation d _ _ _ _ _ _ _ _ => d
  | .xsphCorrection d _ _ => d

/-- Source-species list of an equation (`none` for `sources=None`). -/
def Equation.sources : Equation → Option (List String)
  | .taitEOS _ s _ _ _ => s
  | .taitEOSHGCorrection _ s _ _ _ => s
  | .continuityEquation _ s => s
  | .momentumEquation _ s _ _ _ _ _ _ _ => s
  | .xsphCorrection _ s _ => s

/-- The `c0` constant carried by an equation, when its constructor takes one. -/
def Equation.c0val : Equation → Option ℚ
  | .taitEOS _ _ _ c _ => some c
  | .taitEOSHGCorrection _ _ _ c _ => some c
  | .momentumEquation _ _ c _ _ _ _ _ _ => some c
  | _ => none

/-- The kind of an equation, forgetting its configuration. -/
inductive EqKind where
  | eos
  | eosHG
  | continuity
  | momentum
  | xsph
  deriving DecidableEq

/-- Map an equation to its kind. -/
def Equation.kind : Equation → EqKind
  | .taitEOS _ _ _ _ _ => .eos
  | .taitEOSHGCorrection _ _ _ _ _ => .eosHG
  | .continuityEquation _ _ => .continuity
  | .momentumEquation _ _ _ _ _ _ _ _ _ => .momentum
  | .xsphCorrection _ _ _ => .xsph

/-- `DamBreak3DSPhysics.create_equations`: the two-group pipeline, transcribed
from the source.  `sqrt` abstracts `numpy.sqrt` used in the module-level `c0`. -/
def create_equations (sqrt : ℚ → ℚ) (ind : Indat) : List Group :=
  [ { equations :=
        [ .taitEOS "fluid" none ind.rho0 (c0 sqrt ind) ind.gamma,
          .taitEOSHGCorrection "boundary" none ind.rho0 (c0 sqrt ind) ind.gamma ],
      real := false },
    { equations :=
        [ .continuityEquation "fluid" (some ["fluid", "boundary"]),
          .continuityEquation "boundary" (some ["fluid"]),
          .momentumEquation "fluid" (some ["fluid", "boundary"])
            (c0 sqrt ind) ind.alpha beta 0 0 (-981 / 100) true,
          .xsphCorrection "fluid" (some ["fluid"]) ind.eps ],
      real := true } ]

/-- All equations of the pipeline, in evaluation order. -/
def allEquations (sqrt : ℚ → ℚ) (ind : Indat) : List Equation :=
  ((create_equations sqrt ind).map Group.equations).flatten

/-- Per-species stepper.  The source only ever constructs `WCSPHStep()`. -/
inductive Stepper where
  | wcsphStep
  deriving DecidableEq

/-- The two integrator classes the source chooses between. -/
inductive IntegratorKind where
  | pec
  | epec
  deriving DecidableEq

/-- An integrator: its stepping scheme plus the stepper assigned to each of
the two species, as in `PECIntegrator(fluid=..., boundary=...)`. -/
structure Integrator where
  kind : IntegratorKind
  fluid : Stepper
  boundary : Stepper
  deriving DecidableEq

/-- The smoothing kernel; the source constructs `CubicSpline(dim=3)`. -/
inductive Kernel where
  | cubicSpline (dim : ℕ)
  deriving DecidableEq

/-- The solver configuration assembled by `create_solver`. -/
structure Solver where
  dim : ℕ
  kernel : Kernel
  integrator : Integrator
  adaptive_timestep : Bool
  tf : ℚ
  dt : ℚ
  n_damp : ℕ
  deriving DecidableEq

/-- `DamBreak3DSPhysics.create_solver`, transcribed from the source.  `test`
embeds `self.options.test` (the `--test` command-line flag). -/
def create_solver (test : Bool) : Solver :=
  let kernel := Kernel.cubicSpline 3
  if test then
    { dim := dim, kernel := kernel,
      integrator := { kind := .pec, fluid := .wcsphStep, boundary := .wcsphStep },
      adaptive_timestep := false, tf := tf, dt := dt, n_damp := 0 }
  else
    { dim := dim, kernel := kernel,
      integrator := { kind := .epec, fluid := .wcsphStep, boundary := .wcsphStep },
      adaptive_timestep := true, tf := tf, dt := dt, n_damp := 0 }

/-- Modelled from the spec: the missing stepper implementation (`WCSPHStep`
is library code, not part of this repository slice).  The spec's §4.7 states
that the stepper used for a fluid species "steps position, velocity, and
density"; the source assigns this same `WCSPHStep` to both species, so its
footprint covers all three state fields.  `stepsPosition s = true` means the
stepper predicts/corrects the position field. -/
def Stepper.stepsPosition : Stepper → Bool
  | .wcsphStep => true

/-- Whether the stepper predicts/corrects the velocity field (see
`Stepper.stepsPosition` for the modelling note). -/
def Stepper.stepsVelocity : Stepper → Bool
  | .wcsphStep => true

/-- Whether the stepper predicts/corrects the density field (see
`Stepper.stepsPosition` for the modelling note). -/
def Stepper.stepsDensity : Stepper → Bool
  | .wcsphStep => true

/-- A stepper "steps density only" when it steps density while holding
position and velocity fixed. -/
def Stepper.stepsDensityOnly (s : Stepper) : Bool :=
  s.stepsDensity && !s.stepsPosition && !s.stepsVelocity

/-- Modelled from the spec: the missing `ContinuityEquation` evaluation
(library code).  Per spec §4.3, the dρ/dt accumulation for one destination
particle is summed across every listed source species independently:
`contrib s` is the neighbor sum Σ_{j ∈ s} m_j·(v_i − v_j)·∇W over source
species `s`, and the accumulated rate is the sum of the per-species sums. -/
def continuityAccum (sources : List String) (contrib : String → ℚ) : ℚ :=
  (sources.map contrib).sum

/-- Modelled from the spec: the β-weighted bulk part of the missing
`MomentumEquation` artificial-viscosity term (library code).  Per spec §4.4
the artificial viscosity is parameterized by α (shear) and β (bulk); the bulk
part is the standard β·μ²/ρ̄ contribution, active per approaching pair. -/
def bulkViscosityTerm (b mu rhobar : ℚ) : ℚ := b * mu ^ 2 / rhobar

/-- The per-step accumulator slots of spec §3: density rate, acceleration
(three components), position rate (three components), and pressure. -/
inductive Accum where
  | arho
  | au
  | av
  | aw
  | ax
  | ay
  | az
  | p
  deriving DecidableEq

/-- Modelled from the spec: the write-set of each missing equation
implementation (library code).  Per spec §4.2 the EOS equations compute
pressure; per §4.3 continuity writes only the dρ/dt accumulator; per §4.4
momentum accumulates into the destination's acceleration; per §4.5 XSPH
writes the distinct position-rate accumulator. -/
def Equation.writes : Equation → List Accum
  | .taitEOS _ _ _ _ _ => [.p]
  | .taitEOSHGCorrection _ _ _ _ _ => [.p]
  | .continuityEquation _ _ => [.arho]
  | .momentumEquation _ _ _ _ _ _ _ _ _ => [.au, .av, .aw]
  | .xsphCorrection _ _ _ => [.ax, .ay, .az]

/-- The acceleration and position-rate accumulators. -/
def accelPosAccums : List Accum := [.au, .av, .aw, .ax, .ay, .az]

/-- The pipeline equations whose destination is the given species. -/
def destEquations (sqrt : ℚ → ℚ) (ind : Indat) (species : String) : List Equation :=
  (allEquations sqrt ind).filter (fun e => e.dest == species)

/-- Accumulators are zeroed at the start of a pass; each equation writing a
slot adds its contribution.  `finalAccum eqs contrib f` is the value of slot
`f` after the equations `eqs` ran, where `contrib e` abstracts the total
contribution equation `e` adds to each slot it writes. -/
def finalAccum (eqs : List Equation) (contrib : Equation → ℚ) (f : Accum) : ℚ :=
  (eqs.filter (fun e => e.writes.contains f)).foldl (fun a e => a + contrib e) 0

/-- Modelled from the spec: the solver main loop (library code).  Per spec
§4.8, on each iteration the solver recomputes dt from a CFL-type condition
when adaptive timestepping is enabled; otherwise the configured fixed dt is
used.  `suggested` is the adaptively recomputed candidate. -/
def usedDt (s : Solver) (suggested : ℚ) : ℚ :=
  if s.adaptive_timestep then suggested else s.dt

/-- Modelled from the spec: the state sequence of a run (library code).
`step d st` advances the simulation state `st` by one step of size `d`
(the deterministic integrator invocation of §4.7); `oracle n` is the
CFL-recomputed timestep candidate available at step `n`, the only
run-time-dependent input of the loop of §4.8. -/
def runStates {St : Type} (s : Solver) (step : ℚ → St → St) (oracle : ℕ → ℚ)
    (init : St) : ℕ → St
  | 0 => init
  | n + 1 => step (usedDt s (oracle n)) (runStates s step oracle init n)

/-- Whether a group contains an equation of the given kind. -/
def groupHasKind (k : EqKind) (g : Group) : Bool :=
  g.equations.any fun e => e.kind == k

/-- The plain- and HG-Tait EOS configurations of an equation, when it is one. -/
def Equation.eosParams :
    Equation → Option (EqKind × String × Option (List String) × ℚ × ℚ × ℚ)
  | .taitEOS d s r c g => some (.eos, d, s, r, c, g)
  | .taitEOSHGCorrection d s r c g => some (.eosHG, d, s, r, c, g)
  | _ => none

/-- The configuration of a momentum equation, when the equation is one. -/
def Equation.momentumParams :
    Equation → Option (String × Option (List String) × ℚ × ℚ × ℚ × ℚ × ℚ × ℚ × Bool)
  | .momentumEquation d s c a b gx gy gz tc => some (d, s, c, a, b, gx, gy, gz, tc)
  | _ => none

/-- The bulk artificial-viscosity coefficient of an equation, when it has one. -/
def Equation.betaVal : Equation → Option ℚ
  | .momentumEquation _ _ _ _ b _ _ _ _ => some b
  | _ => none

/-- C1: with `--test`, `create_solver` builds a PEC integrator; without it, an
EPEC integrator; in both cases a stepper is assigned to each of the `fluid`
and `boundary` species. -/
theorem C1_integrator_choice :
    (create_solver true).integrator.kind = IntegratorKind.pec ∧
    (create_solver false).integrator.kind = IntegratorKind.epec ∧
    ∀ test : Bool,
      (create_solver test).integrator.fluid = Stepper.wcsphStep ∧
      (create_solver test).integrator.boundary = Stepper.wcsphStep := by
  refine ⟨rfl, rfl, ?_⟩
  intro test
  cases test <;> exact ⟨rfl, rfl⟩

/-- C2: for every INDAT record, the pipeline places the equation-of-state
group (plain Tait on `fluid`, HG-corrected on `boundary`) at index 0, strictly
before the group at index 1 holding the continuity, momentum and XSPH
equations; no EOS equation occurs in the later group and no
continuity/momentum/XSPH in the earlier one. -/
theorem C2_eos_group_strictly_first (sqrt : ℚ → ℚ) (ind : Indat) :
    ((create_equations sqrt ind).map fun g => g.equations.map Equation.kind) =
      [[.eos, .eosHG], [.continuity, .continuity, .momentum, .xsph]] ∧
    (create_equations sqrt ind).findIdx? (groupHasKind .eos) = some 0 ∧
    (create_equations sqrt ind).findIdx? (groupHasKind .eosHG) = some 0 ∧
    (create_equations sqrt ind).findIdx? (groupHasKind .continuity) = some 1 ∧
    (create_equations sqrt ind).findIdx? (groupHasKind .momentum) = some 1 ∧
    (create_equations sqrt ind).findIdx? (groupHasKind .xsph) = some 1 ∧
    (((create_equations sqrt ind).getD 0 ⟨[], true⟩).equations.map
        fun e => (e.kind, e.dest)) = [(.eos, "fluid"), (.eosHG, "boundary")] := by
  exact ⟨rfl, rfl, rfl, rfl, rfl, rfl, rfl⟩

/-- C3: the module-level `c0` is the square root of `B·γ/ρ0` for the INDAT
constants, and exactly the plain Tait EOS, the HG-corrected EOS and the
momentum equation carry a `c0` constant, each carrying that same value. -/
theorem C3_c0_computed_once_and_passed (sqrt : ℚ → ℚ) (ind : Indat) :
    c0 sqrt ind = sqrt (ind.B * ind.gamma / ind.rho0) ∧
    ((allEquations sqrt ind).filterMap
        fun e => (Equation.c0val e).map fun c => (e.kind, c)) =
      [(.eos, c0 sqrt ind), (.eosHG, c0 sqrt ind), (.momentum, c0 sqrt ind)] := by
  exact ⟨rfl, rfl⟩

/-- C4: the pipeline contains exactly two continuity equations — destination
`fluid` with sources `fluid` and `boundary`, destination `boundary` with
source `fluid` — and the modelled dρ/dt accumulation over the fluid
equation's source list is the sum of the two species' contributions. -/
theorem C4_continuity_sources_summed (sqrt : ℚ → ℚ) (ind : Indat)
    (contrib : String → ℚ) :
    ((allEquations sqrt ind).filterMap fun e =>
        match e with
        | .continuityEquation d s => some (d, s)
        | _ => none) =
      [("fluid", some ["fluid", "boundary"]), ("boundary", some ["fluid"])] ∧
    continuityAccum ["fluid", "boundary"] contrib =
      contrib "fluid" + contrib "boundary" := by
  refine ⟨rfl, ?_⟩
  simp [continuityAccum]

/-- C5: the pipeline's two EOS equations are the plain Tait on `fluid` and
the HG-corrected variant on `boundary`, both with `sources = none` and with
identical constants ρ0, c0, γ. -/
theorem C5_eos_no_sources_same_constants (sqrt : ℚ → ℚ) (ind : Indat) :
    ((allEquations sqrt ind).filterMap Equation.eosParams) =
      [(.eos, "fluid", none, ind.rho0, c0 sqrt ind, ind.gamma),
       (.eosHG, "boundary", none, ind.rho0, c0 sqrt ind, ind.gamma)] := by
  exact rfl

/-- C6: the single momentum equation targets `fluid` with sources `fluid` and
`boundary`, carries the module `c0`, α from INDAT, β = 0, gravity
(gx, gy, gz) = (0, 0, −9.81) along the z axis only, and the tensile
correction enabled. -/
theorem C6_momentum_configuration (sqrt : ℚ → ℚ) (ind : Indat) :
    ((allEquations sqrt ind).filterMap Equation.momentumParams) =
      [("fluid", some ["fluid", "boundary"], c0 sqrt ind, ind.alpha, beta,
        0, 0, -981 / 100, true)] := by
  exact rfl

/-- C7 counterexample: with `--test`, the stepper assigned to `boundary` is a
`WCSPHStep`, which does not step density only — it also steps position and
velocity — refuting the claim that the boundary stepper holds position and
velocity fixed. -/
theorem C7_counterexample :
    (create_solver true).integrator.boundary = Stepper.wcsphStep ∧
    Stepper.stepsDensityOnly (create_solver true).integrator.boundary = false ∧
    Stepper.stepsPosition (create_solver true).integrator.boundary = true ∧
    Stepper.stepsVelocity (create_solver true).integrator.boundary = true := by
  exact ⟨rfl, rfl, rfl, rfl⟩

/-- C7 (amended): for every integrator variant, the `boundary` species is
assigned the same `WCSPHStep` stepper as the `fluid` species, and that
stepper steps position, velocity and density — it does not step density
only. -/
theorem C7_both_species_full_stepper (test : Bool) :
    (create_solver test).integrator.boundary = Stepper.wcsphStep ∧
    (create_solver test).integrator.fluid = (create_solver test).integrator.boundary ∧
    Stepper.stepsPosition Stepper.wcsphStep = true ∧
    Stepper.stepsVelocity Stepper.wcsphStep = true ∧
    Stepper.stepsDensity Stepper.wcsphStep = true ∧
    Stepper.stepsDensityOnly Stepper.wcsphStep = false := by
  cases test <;> exact ⟨rfl, rfl, rfl, rfl, rfl, rfl⟩

/-- C8: with `--test`, adaptive timestepping is off and `n_damp = 0`, every
step uses the fixed `dt = 1e-5`, and the run's state sequence is independent
of the adaptive-timestep oracle (two runs on identical input coincide);
without `--test`, adaptive timestepping is on and `n_damp` is likewise 0. -/
theorem C8_test_run_reproducible :
    (create_solver true).adaptive_timestep = false ∧
    (create_solver true).n_damp = 0 ∧
    (∀ suggested : ℚ, usedDt (create_solver true) suggested = 1 / 100000) ∧
    (∀ (St : Type) (step : ℚ → St → St) (o o' : ℕ → ℚ) (init : St) (n : ℕ),
      runStates (create_solver true) step o init n =
        runStates (create_solver true) step o' init n) ∧
    (create_solver false).adaptive_timestep = true ∧
    (create_solver false).n_damp = 0 := by
  refine ⟨rfl, rfl, fun _ => rfl, ?_, rfl, rfl⟩
  intro St step o o' init n
  induction n with
  | zero => rfl
  | succ n ih =>
      simp only [runStates, ih]
      rfl

/-- C9: the bulk artificial-viscosity coefficient β of the momentum equation
is the hard-coded module constant 0, identical for every INDAT record (never
read from it), and the β-weighted bulk viscosity term is identically zero. -/
theorem C9_beta_hardcoded_zero (sqrt : ℚ → ℚ) (ind ind' : Indat) :
    beta = 0 ∧
    ((allEquations sqrt ind).filterMap Equation.betaVal) = [beta] ∧
    ((allEquations sqrt ind).filterMap Equation.betaVal) =
      ((allEquations sqrt ind').filterMap Equation.betaVal) ∧
    (∀ mu rhobar : ℚ, bulkViscosityTerm beta mu rhobar = 0) := by
  refine ⟨rfl, rfl, rfl, ?_⟩
  intro mu rhobar
  simp [bulkViscosityTerm, beta]

/-- C10: the only pipeline equations with destination `boundary` are the
HG-corrected EOS and one continuity equation; their write-sets are pressure
and dρ/dt only, so every acceleration and position-rate accumulator of the
boundary species retains its zeroed value after a pipeline evaluation. -/
theorem C10_boundary_accel_stays_zero (sqrt : ℚ → ℚ) (ind : Indat)
    (contrib : Equation → ℚ) :
    destEquations sqrt ind "boundary" =
      [.taitEOSHGCorrection "boundary" none ind.rho0 (c0 sqrt ind) ind.gamma,
       .continuityEquation "boundary" (some ["fluid"])] ∧
    ((destEquations sqrt ind "boundary").map Equation.writes) =
      [[.p], [.arho]] ∧
    (accelPosAccums.map
        (finalAccum (destEquations sqrt ind "boundary") contrib)) =
      [0, 0, 0, 0, 0, 0] := by
  exact ⟨rfl, rfl, rfl⟩

end PySPH
